import Mathlib

/-
Shallow embedding of the "neighborhood" HTTP service (Go).
Sources embedded: src/cmd/store.go (the MySQL persistence gateway),
src/cmd/handler.go (the HTTP request handlers), src/cmd/tree.go (the
entity records), and the schema in src/sql (the uniqueness index on
(house_id, x_coord, y_coord) and the fallen default).

The relational store is modelled as an explicit state `DB` holding the
two tables as lists of records plus the auto-increment counters.  SQL
statements become pure functions on `DB`; the storm transaction becomes
a function returning a `StormResult` that distinguishes commit,
rollback (which restores the entry state) and a Go runtime panic
(rand.Intn with a non-positive bound panics).  The random source is a
parameter `r : Nat`; `rand.Intn m` (for m > 0) is modelled as `r % m`,
so that as `r` ranges over Nat the draw ranges over exactly [0, m).
-/

namespace Neighborhood

/-- House record, from src/cmd/tree.go and the house table of
src/sql/house.sql. -/
structure House where
  ID : Int
  AddressOne : String
  AddressTwo : String
  City : String
  State : String
  Zip : String
deriving DecidableEq

/-- Tree record, from src/cmd/tree.go together with the house_id column
of src/sql/tree.sql (the Go struct carries the column through the
INSERT parameter rather than a field). -/
structure Tree where
  ID : Int
  HouseID : Int
  Species : String
  XCoord : Int
  YCoord : Int
  RelativeLocation : String
  Fallen : Bool
deriving DecidableEq

/-- Database state: the two tables in row order plus the
auto-increment counters that generate identifiers on insert. -/
structure DB where
  houses : List House
  trees : List Tree
  nextHouseID : Int
  nextTreeID : Int
deriving DecidableEq

/-- Error values of the gateway, from src/cmd/store.go: the three
sentinel errors plus the wrapped fmt.Errorf persistence errors. -/
inductive StoreErr where
  | duplicateTree
  | noMatchingRecord
  | noTrees
  | generic (msg : String)
deriving DecidableEq

/-- Outcome of the storm transaction: a committed new state, a rolled
back transaction (the state reverts to the entry state, carried for
reference) together with the surfaced error, or a Go runtime panic. -/
inductive StormResult where
  | committed (db : DB)
  | rolledBack (e : StoreErr) (db : DB)
  | panics
deriving DecidableEq

namespace Store

/-- Ordering used by the ORDER BY h.id ASC clause of get-all-houses. -/
def houseOrd (a b : House) : Prop := a.ID ≤ b.ID

instance : DecidableRel houseOrd :=
  fun a b => inferInstanceAs (Decidable (a.ID ≤ b.ID))

instance : IsTotal House houseOrd := ⟨fun a b => Int.le_total a.ID b.ID⟩

instance : IsTrans House houseOrd := ⟨fun _ _ _ => Int.le_trans⟩

/-- Ordering used by the ORDER BY t.id ASC clause of
get-trees-by-house-id. -/
def treeOrd (a b : Tree) : Prop := a.ID ≤ b.ID

instance : DecidableRel treeOrd :=
  fun a b => inferInstanceAs (Decidable (a.ID ≤ b.ID))

instance : IsTotal Tree treeOrd := ⟨fun a b => Int.le_total a.ID b.ID⟩

instance : IsTrans Tree treeOrd := ⟨fun _ _ _ => Int.le_trans⟩

/-- GetAllHouses (store.go): SELECT every house ORDER BY id ASC.  The
underlying driver can only fail on I/O, which the pure model has no
counterpart for, so the function is total: an empty table yields the
empty list, not an error. -/
def GetAllHouses (db : DB) : List House :=
  List.insertionSort houseOrd db.houses

/-- GetHouseExistsByHouseID (store.go): SELECT EXISTS over the house
table at the given identifier. -/
def GetHouseExistsByHouseID (db : DB) (houseID : Int) : Bool :=
  db.houses.any (fun h => h.ID == houseID)

/-- GetTreesByHouseID (store.go): SELECT the trees whose house_id
matches, ORDER BY id ASC; empty result is the empty list, not an
error. -/
def GetTreesByHouseID (db : DB) (houseID : Int) : List Tree :=
  List.insertionSort treeOrd (db.trees.filter (fun t => t.HouseID == houseID))

/-- AddHouse (store.go): INSERT the house row; the generated identifier
is the auto-increment counter, returned as LastInsertId.  The model has
no driver-failure path, so the insert always succeeds (the spec notes
there is no house-specific duplicate rule). -/
def AddHouse (db : DB) (h : House) : Int × DB :=
  (db.nextHouseID,
   { db with
      houses := db.houses ++ [{ h with ID := db.nextHouseID }]
      nextHouseID := db.nextHouseID + 1 })

/-- Row stored by the add-tree INSERT: house_id from the parameter, the
fallen column takes its schema default 0 (the INSERT names no fallen
column), id from the auto-increment counter. -/
def insertedTree (db : DB) (t : Tree) (houseID : Int) : Tree :=
  { ID := db.nextTreeID
    HouseID := houseID
    Species := t.Species
    XCoord := t.XCoord
    YCoord := t.YCoord
    RelativeLocation := t.RelativeLocation
    Fallen := false }

/-- Predicate for a MySQL duplicate-key (error 1062) violation of the
unique index absolute_location on (house_id, x_coord, y_coord) from
src/sql/tree.sql. -/
def dupAt (db : DB) (t : Tree) (houseID : Int) : Bool :=
  db.trees.any
    (fun u => u.HouseID == houseID && u.XCoord == t.XCoord && u.YCoord == t.YCoord)

/-- AddTreeByHouseID (store.go): INSERT a tree.  A violation of the
composite unique index surfaces as MySQL error 1062 which the Go code
maps to ErrDuplicateTree; a missing house violates the foreign key and
surfaces as a generic wrapped persistence error; otherwise the row is
stored and the generated identifier returned. -/
def AddTreeByHouseID (db : DB) (t : Tree) (houseID : Int) :
    Except StoreErr (Int × DB) :=
  if dupAt db t houseID then .error .duplicateTree
  else if db.houses.any (fun h => h.ID == houseID) then
    .ok (db.nextTreeID,
      { db with
          trees := db.trees ++ [insertedTree db t houseID]
          nextTreeID := db.nextTreeID + 1 })
  else .error (.generic "INSERT Tree failed")

/-- Candidate set of the storm transaction (get-tree-ids-by-house-id):
SELECT t.id FROM house h JOIN tree t ON t.house_id = h.id WHERE
h.id = ?.  The join with the house table makes the set empty when the
house row is absent. -/
def treeIDsAtHouse (db : DB) (houseID : Int) : List Int :=
  if db.houses.any (fun h => h.ID == houseID) then
    (db.trees.filter (fun t => t.HouseID == houseID)).map Tree.ID
  else []

/-- Effect of the fell-tree-by-tree-id UPDATE: set fallen = 1 on every
row whose id matches. -/
def fellTreeUpdate (trees : List Tree) (treeID : Int) : List Tree :=
  trees.map (fun t => if t.ID == treeID then { t with Fallen := true } else t)

/-- RowsAffected reported by the driver for the fell-tree UPDATE: MySQL
counts changed rows, so a row that is already fallen, or an id that
matches no row, contributes nothing. -/
def fellRowsAffected (trees : List Tree) (treeID : Int) : Nat :=
  (trees.filter (fun t => t.ID == treeID && t.Fallen == false)).length

/-- Go rand.Intn modelled on the draw `r`: panics (none) when the bound
is not positive, otherwise yields r % n, a value in [0, n). -/
def randIntn (r n : Nat) : Option Nat :=
  if n = 0 then none else some (r % n)

/-- Body of FellRandomTreeByHouseID (store.go), with the state the
candidate SELECT reads (`dbRead`) separated from the state the UPDATE
executes against (`dbWrite`) so that a concurrent deletion between the
two steps is expressible; the ordinary sequential run passes the same
state twice.  Faithful to the source: the candidate read, the
zero-candidate rollback returning ErrNoTrees, the draw
rand.Intn(len(treeIDs) - 1) (note the - 1), the UPDATE, and a commit
that reads RowsAffected only to log it — no branch inspects the
count. -/
def fellRandomTreeTx (dbRead dbWrite : DB) (houseID : Int) (r : Nat) :
    StormResult :=
  if (treeIDsAtHouse dbRead houseID).length = 0 then .rolledBack .noTrees dbWrite
  else
    match randIntn r ((treeIDsAtHouse dbRead houseID).length - 1) with
    | none => .panics
    | some randIndex =>
      .committed { dbWrite with
        trees := fellTreeUpdate dbWrite.trees
          ((treeIDsAtHouse dbRead houseID).getD randIndex 0) }

/-- FellRandomTreeByHouseID (store.go): the storm transaction run
sequentially, reading and writing the same state. -/
def FellRandomTreeByHouseID (db : DB) (houseID : Int) (r : Nat) : StormResult :=
  fellRandomTreeTx db db houseID r

/-- GetTreeFallenByTreeID (store.go): QueryRow over the tree table; no
row yields sql.ErrNoRows which the code maps to ErrNoMatchingRecord. -/
def GetTreeFallenByTreeID (db : DB) (treeID : Int) : Except StoreErr Bool :=
  match db.trees.find? (fun t => t.ID == treeID) with
  | none => .error .noMatchingRecord
  | some t => .ok t.Fallen

/-- RemoveTreeByTreeID (store.go): DELETE by id, then treat a zero
RowsAffected count as a generic persistence error. -/
def RemoveTreeByTreeID (db : DB) (treeID : Int) : Except StoreErr DB :=
  let remaining := db.trees.filter (fun t => !(t.ID == treeID))
  if (db.trees.filter (fun t => t.ID == treeID)).length = 0 then
    .error (.generic "no rows affected by DELETE Tree")
  else .ok { db with trees := remaining }

end Store

namespace Handler

/-- Digits test used by the ParseInt model. -/
def isDigit (c : Char) : Bool := '0' ≤ c && c ≤ '9'

/-- Value of an all-digit character list read in base 10. -/
def digitsVal (cs : List Char) : Nat :=
  cs.foldl (fun a c => a * 10 + (c.toNat - 48)) 0

/-- Go strconv.ParseInt(s, 10, 32): an optional sign followed by one or
more ASCII digits; anything else is a syntax error, and a value outside
the signed 32-bit range is a range error.  Both error cases make the
caller getInt32Param reject, so both are none here. -/
def goParseInt32 (s : String) : Option Int :=
  let cs := s.data
  let signed : Bool × List Char :=
    match cs with
    | '-' :: rest => (true, rest)
    | '+' :: rest => (false, rest)
    | rest => (false, rest)
  let digits := signed.2
  if digits.isEmpty then none
  else if digits.all isDigit then
    let v : Int := if signed.1 then -(digitsVal digits : Int) else (digitsVal digits : Int)
    if v < -(2 ^ 31) || v > 2 ^ 31 - 1 then none else some v
  else none

/-- getInt32Param (handler.go): reject when ParseInt errs or the parsed
value is zero, otherwise accept the value. -/
def getInt32Param (s : String) : Except String Int :=
  match goParseInt32 s with
  | none => .error "param %s must be a valid, non-zero numeral"
  | some v =>
    if v == 0 then .error "param %s must be a valid, non-zero numeral"
    else .ok v

/-- AddHouse handler (handler.go), after the JSON body decode: the four
emptiness checks in source order — address one, city, state, and then
state AGAIN (the source repeats house.State == "" where its message
says zip; the zip field itself is never inspected) — then the store
insert and a 200 response.  Result is ((status, message), new state);
validation failures leave the state unchanged. -/
def AddHouse (db : DB) (h : House) : (Nat × String) × DB :=
  if h.AddressOne == "" then ((400, "must specify address one"), db)
  else if h.City == "" then ((400, "must specify city"), db)
  else if h.State == "" then ((400, "must specify state"), db)
  else if h.State == "" then ((400, "must specify zip"), db)
  else ((200, ""), (Store.AddHouse db h).2)

/-- GetTreesByHouseID handler (handler.go), after parameter parsing:
404 when the house does not exist, 404 when the house has no trees,
200 otherwise.  Only the status matters to the embedded claims. -/
def GetTreesByHouseID (db : DB) (houseID : Int) : Nat :=
  if !(Store.GetHouseExistsByHouseID db houseID) then 404
  else if (Store.GetTreesByHouseID db houseID).length = 0 then 404
  else 200

/-- Outcome of the storm handler: an HTTP status with the resulting
state, or a propagated runtime panic from the store. -/
inductive StormHttp where
  | resp (status : Nat) (db : DB)
  | panics
deriving DecidableEq

/-- SendStormByHouseID handler (handler.go), after parameter parsing:
404 when the house does not exist; otherwise run the storm — ErrNoTrees
maps to 400, any other store error to 500, success to a 200 response
with the post-storm state. -/
def SendStormByHouseID (db : DB) (houseID : Int) (r : Nat) : StormHttp :=
  if !(Store.GetHouseExistsByHouseID db houseID) then .resp 404 db
  else
    match Store.FellRandomTreeByHouseID db houseID r with
    | .rolledBack .noTrees db0 => .resp 400 db0
    | .rolledBack _ db0 => .resp 500 db0
    | .panics => .panics
    | .committed db1 => .resp 200 db1

/-- RemoveTreeByTreeID handler (handler.go), after parameter parsing:
ErrNoMatchingRecord from the fallen lookup maps to 404, any other
lookup error to 500; a standing tree is refused with 400; otherwise the
store delete runs, its failure mapping to 500 and success to 200. -/
def RemoveTreeByTreeID (db : DB) (treeID : Int) : Nat × DB :=
  match Store.GetTreeFallenByTreeID db treeID with
  | .error .noMatchingRecord => (404, db)
  | .error _ => (500, db)
  | .ok false => (400, db)
  | .ok true =>
    match Store.RemoveTreeByTreeID db treeID with
    | .error _ => (500, db)
    | .ok db1 => (200, db1)

end Handler

/-! Concrete fixtures used by counterexamples and witnesses. -/

/-- House number 1 of the concrete fixtures. -/
def houseA : House := ⟨1, "a", "", "c", "s", "z"⟩

/-- Standing oak, tree 1 at house 1, coordinates (1, 1). -/
def treeOak : Tree := ⟨1, 1, "oak", 1, 1, "", false⟩

/-- Standing elm, tree 2 at house 1, coordinates (2, 2). -/
def treeElm : Tree := ⟨2, 1, "elm", 2, 2, "", false⟩

/-- The oak after falling. -/
def treeOakFallen : Tree := ⟨1, 1, "oak", 1, 1, "", true⟩

/-- State with house 1 and no trees. -/
def dbNoTrees : DB := ⟨[houseA], [], 2, 1⟩

/-- State with house 1 and the single standing oak. -/
def dbOneTree : DB := ⟨[houseA], [treeOak], 2, 2⟩

/-- State with house 1 and the standing oak and elm. -/
def dbTwoTrees : DB := ⟨[houseA], [treeOak, treeElm], 2, 3⟩

/-- State dbTwoTrees after the oak has fallen. -/
def dbTwoTreesFelled : DB := ⟨[houseA], [treeOakFallen, treeElm], 2, 3⟩

/-- State dbTwoTrees after the oak row has been deleted. -/
def dbMidDelete : DB := ⟨[houseA], [treeElm], 2, 3⟩

/-- State with no houses and no trees at all. -/
def dbEmpty : DB := ⟨[], [], 1, 1⟩

/-! Shared helper lemmas. -/

/-- An empty candidate set makes the storm transaction roll back with
ErrNoTrees, leaving the write-side state untouched. -/
theorem fellRandomTreeTx_empty (dbRead dbWrite : DB) (houseID : Int) (r : Nat)
    (h : Store.treeIDsAtHouse dbRead houseID = []) :
    Store.fellRandomTreeTx dbRead dbWrite houseID r = .rolledBack .noTrees dbWrite := by
  unfold Store.fellRandomTreeTx
  simp [h]

/-- A getD read at an in-bounds index is a member of the list. -/
theorem getD_mem_of_lt {l : List Int} {n : Nat} (h : n < l.length) (d : Int) :
    l.getD n d ∈ l := by
  rw [List.getD_eq_getElem l d h]
  exact List.getElem_mem h

/-- Count of positions at which two equally laid out table snapshots
hold different rows. -/
def changedCount : List Tree → List Tree → Nat
  | a :: as, b :: bs => (if a = b then 0 else 1) + changedCount as bs
  | _, _ => 0

/-- A snapshot differs from itself at no position. -/
theorem changedCount_refl (ts : List Tree) : changedCount ts ts = 0 := by
  induction ts with
  | nil => rfl
  | cons t ts ih => simp [changedCount, ih]

/-- The fell-tree UPDATE is the identity when no row carries the
targeted identifier. -/
theorem fellTreeUpdate_not_mem (ts : List Tree) (tid : Int)
    (h : ∀ t ∈ ts, t.ID ≠ tid) : Store.fellTreeUpdate ts tid = ts := by
  induction ts with
  | nil => rfl
  | cons t ts ih =>
    have ht : t.ID ≠ tid := h t (by simp)
    have hts : ∀ u ∈ ts, u.ID ≠ tid := fun u hu => h u (by simp [hu])
    simp only [Store.fellTreeUpdate, List.map_cons] at ih ⊢
    rw [if_neg (by simp [ht]), ih hts]

/-- When row identifiers are unique, the fell-tree UPDATE changes at
most one row of the snapshot. -/
theorem changedCount_fellTreeUpdate (ts : List Tree) (tid : Int)
    (h : (ts.map Tree.ID).Nodup) :
    changedCount ts (Store.fellTreeUpdate ts tid) ≤ 1 := by
  induction ts with
  | nil => simp [changedCount, Store.fellTreeUpdate]
  | cons t ts ih =>
    rw [List.map_cons, List.nodup_cons] at h
    have hstep : Store.fellTreeUpdate (t :: ts) tid =
        (if t.ID == tid then { t with Fallen := true } else t) ::
          Store.fellTreeUpdate ts tid := rfl
    by_cases htid : t.ID = tid
    · have hts : ∀ u ∈ ts, u.ID ≠ tid := by
        intro u hu heq
        exact h.1 (htid ▸ heq ▸ List.mem_map_of_mem Tree.ID hu)
      rw [hstep, fellTreeUpdate_not_mem ts tid hts]
      show (if t = (if (t.ID == tid) = true then { t with Fallen := true } else t) then 0 else 1)
          + changedCount ts ts ≤ 1
      rw [changedCount_refl]
      by_cases he : t = (if (t.ID == tid) = true then { t with Fallen := true } else t)
      · rw [if_pos he]
        decide
      · rw [if_neg he]
    · rw [hstep, if_neg (by simp [htid])]
      show (if t = t then 0 else 1) + changedCount ts (Store.fellTreeUpdate ts tid) ≤ 1
      rw [if_pos rfl, Nat.zero_add]
      exact ih h.2

/-! Claim theorems. -/

/-- C1: the claim asserts that the storm selection is uniform over the
full candidate set, selects the last member with nonzero probability,
and does not degenerate for a set of size 1.  The code draws
rand.Intn(len(treeIDs) - 1): with one candidate the bound is 0 so
rand.Intn panics for every draw, and with two candidates every draw
selects index 0, so the last candidate (the elm, id 2) is never felled.
Both parts of the claim fail at these concrete inputs. -/
theorem fellRandomTree_offByOne_bug :
    (∀ r, Store.FellRandomTreeByHouseID dbOneTree 1 r = .panics) ∧
    (∀ r, Store.FellRandomTreeByHouseID dbTwoTrees 1 r = .committed dbTwoTreesFelled) := by
  constructor
  · intro _
    rfl
  · intro r
    simp [Store.FellRandomTreeByHouseID, Store.fellRandomTreeTx, Store.treeIDsAtHouse,
      Store.randIntn, Nat.mod_one, dbTwoTrees, dbTwoTreesFelled, Store.fellTreeUpdate,
      treeOak, treeElm, treeOakFallen, houseA]

/-- C2: the claim asserts that a fell-tree UPDATE affecting zero rows
(the selected tree deleted mid-transaction) is rolled back with a
persistence error.  In the code RowsAffected is only logged: with the
candidate read seeing the oak and the elm but the oak row deleted
before the UPDATE, the UPDATE affects zero rows and the transaction
still commits, reporting success. -/
theorem storm_zeroRow_commit_bug :
    Store.fellRowsAffected dbMidDelete.trees 1 = 0 ∧
    Store.fellRandomTreeTx dbTwoTrees dbMidDelete 1 0 = .committed dbMidDelete := by
  constructor
  · rfl
  · decide

/-- C3: a house whose candidate set is empty makes FellRandomTree roll
back and fail with ErrNoTrees, mutating no stored record: the resulting
state is exactly the input state. -/
theorem storm_noTrees_rollback (db : DB) (houseID : Int) (r : Nat)
    (h : Store.treeIDsAtHouse db houseID = []) :
    Store.FellRandomTreeByHouseID db houseID r = .rolledBack .noTrees db :=
  fellRandomTreeTx_empty db db houseID r h

/-- C3 witness: the storm at the treeless house 1 rolls back with
ErrNoTrees and leaves the state unchanged. -/
theorem storm_noTrees_rollback_witness :
    Store.FellRandomTreeByHouseID dbNoTrees 1 0 = .rolledBack .noTrees dbNoTrees :=
  storm_noTrees_rollback dbNoTrees 1 0 (by decide)

/-- C4 counterexample: on dbTwoTreesFelled the oak (tree 1) is already
fallen yet stays in the candidate set; the storm run with draw 0
selects it and succeeds while mutating no record — the tree whose flag
is set was not standing beforehand and zero records change, refuting
"fells exactly one standing tree". -/
theorem storm_selects_fallen_counterexample :
    Store.FellRandomTreeByHouseID dbTwoTreesFelled 1 0 = .committed dbTwoTreesFelled ∧
    (dbTwoTreesFelled.trees.find? (fun t => t.ID == 1)).map Tree.Fallen = some true := by
  exact ⟨by decide, by decide⟩

/-- C4 amended: a successful storm run selects its victim from all
trees at the house, standing or already fallen; the houses table is
untouched, the tree table is exactly the input table with the selected
identifier's fallen flag set, and — with unique row identifiers — at
most one record changes (zero when the selected tree was already
fallen). -/
theorem storm_success_mutation (db : DB) (houseID : Int) (r : Nat) (db1 : DB)
    (hwf : (db.trees.map Tree.ID).Nodup)
    (h : Store.FellRandomTreeByHouseID db houseID r = .committed db1) :
    db1.houses = db.houses ∧
    ∃ tid, tid ∈ Store.treeIDsAtHouse db houseID ∧
      db1.trees = Store.fellTreeUpdate db.trees tid ∧
      changedCount db.trees db1.trees ≤ 1 := by
  unfold Store.FellRandomTreeByHouseID Store.fellRandomTreeTx Store.randIntn at h
  by_cases h0 : (Store.treeIDsAtHouse db houseID).length = 0
  · rw [if_pos h0] at h
    cases h
  · rw [if_neg h0] at h
    by_cases h1 : (Store.treeIDsAtHouse db houseID).length - 1 = 0
    · rw [if_pos h1] at h
      cases h
    · rw [if_neg h1] at h
      injection h with h2
      subst h2
      refine ⟨rfl,
        (Store.treeIDsAtHouse db houseID).getD
          (r % ((Store.treeIDsAtHouse db houseID).length - 1)) 0, ?_, rfl, ?_⟩
      · apply getD_mem_of_lt
        have hlt := Nat.mod_lt r (Nat.pos_of_ne_zero h1)
        omega
      · exact changedCount_fellTreeUpdate _ _ hwf

/-- C4 witness: the storm on dbTwoTrees with draw 0 commits
dbTwoTreesFelled, and the amended theorem produces the selected
identifier together with the mutation bound. -/
theorem storm_success_mutation_witness :
    dbTwoTreesFelled.houses = dbTwoTrees.houses ∧
    ∃ tid, tid ∈ Store.treeIDsAtHouse dbTwoTrees 1 ∧
      dbTwoTreesFelled.trees = Store.fellTreeUpdate dbTwoTrees.trees tid ∧
      changedCount dbTwoTrees.trees dbTwoTreesFelled.trees ≤ 1 :=
  storm_success_mutation dbTwoTrees 1 0 dbTwoTreesFelled (by decide) (by decide)

/-- C5: the remove handler deletes a tree only when its fallen flag is
true.  A missing identifier yields the not-found status 404 and leaves
the state unchanged; a standing tree yields the client error 400 and
leaves the state unchanged; a 200 success implies the looked-up tree
was fallen and exactly the rows with that identifier are gone. -/
theorem removeTree_requires_fallen (db : DB) (treeID : Int) :
    (db.trees.find? (fun u => u.ID == treeID) = none →
      Handler.RemoveTreeByTreeID db treeID = (404, db)) ∧
    (∀ t, db.trees.find? (fun u => u.ID == treeID) = some t → t.Fallen = false →
      Handler.RemoveTreeByTreeID db treeID = (400, db)) ∧
    (∀ db1, Handler.RemoveTreeByTreeID db treeID = (200, db1) →
      ∃ t, db.trees.find? (fun u => u.ID == treeID) = some t ∧ t.Fallen = true ∧
        db1.trees = db.trees.filter (fun u => !(u.ID == treeID))) := by
  refine ⟨?_, ?_, ?_⟩
  · intro h
    simp [Handler.RemoveTreeByTreeID, Store.GetTreeFallenByTreeID, h]
  · intro t ht hf
    simp [Handler.RemoveTreeByTreeID, Store.GetTreeFallenByTreeID, ht, hf]
  · intro db1 h
    unfold Handler.RemoveTreeByTreeID at h
    cases hfind : db.trees.find? (fun u => u.ID == treeID) with
    | none =>
      have hGT : Store.GetTreeFallenByTreeID db treeID = .error .noMatchingRecord := by
        unfold Store.GetTreeFallenByTreeID
        rw [hfind]
      rw [hGT] at h
      simp at h
    | some t =>
      have hGT : Store.GetTreeFallenByTreeID db treeID = .ok t.Fallen := by
        unfold Store.GetTreeFallenByTreeID
        rw [hfind]
      rw [hGT] at h
      cases hf : t.Fallen with
      | false =>
        rw [hf] at h
        simp at h
      | true =>
        rw [hf] at h
        by_cases hz : (db.trees.filter (fun u => u.ID == treeID)).length = 0
        · exfalso
          have hpt : (t.ID == treeID) = true := by
            have hs := List.find?_some hfind
            simpa using hs
          have hmem : t ∈ db.trees.filter (fun u => u.ID == treeID) :=
            List.mem_filter.mpr ⟨List.mem_of_find?_eq_some hfind, hpt⟩
          rw [List.length_eq_zero] at hz
          rw [hz] at hmem
          cases hmem
        · have hrm : Store.RemoveTreeByTreeID db treeID =
              .ok { db with trees := db.trees.filter (fun u => !(u.ID == treeID)) } := by
            unfold Store.RemoveTreeByTreeID
            rw [if_neg hz]
          rw [hrm] at h
          simp only [Prod.mk.injEq] at h
          exact ⟨t, rfl, hf, by rw [← h.2]⟩

/-- C5 witness: removing the standing elm (tree 2) from dbTwoTrees is
refused with the client error 400 and the state is unchanged. -/
theorem removeTree_requires_fallen_witness :
    Handler.RemoveTreeByTreeID dbTwoTrees 2 = (400, dbTwoTrees) :=
  (removeTree_requires_fallen dbTwoTrees 2).2.1 treeElm (by decide) (by decide)

/-- C6: the tree insert fails with ErrDuplicateTree exactly when some
existing row violates the composite uniqueness constraint on
(house, x, y); when the house exists and no such row does, the insert
succeeds and returns the generated identifier with the row appended. -/
theorem AddTree_duplicate_iff (db : DB) (t : Tree) (houseID : Int) :
    (Store.AddTreeByHouseID db t houseID = .error .duplicateTree ↔
      ∃ u ∈ db.trees, u.HouseID = houseID ∧ u.XCoord = t.XCoord ∧ u.YCoord = t.YCoord) ∧
    (Store.GetHouseExistsByHouseID db houseID = true →
      (¬ ∃ u ∈ db.trees, u.HouseID = houseID ∧ u.XCoord = t.XCoord ∧ u.YCoord = t.YCoord) →
      Store.AddTreeByHouseID db t houseID =
        .ok (db.nextTreeID,
          { db with
              trees := db.trees ++ [Store.insertedTree db t houseID]
              nextTreeID := db.nextTreeID + 1 })) := by
  have hdup : Store.dupAt db t houseID = true ↔
      ∃ u ∈ db.trees, u.HouseID = houseID ∧ u.XCoord = t.XCoord ∧ u.YCoord = t.YCoord := by
    simp [Store.dupAt, and_assoc]
  constructor
  · constructor
    · intro h
      by_cases hd : Store.dupAt db t houseID
      · exact hdup.mp hd
      · exfalso
        unfold Store.AddTreeByHouseID at h
        rw [if_neg hd] at h
        by_cases hex : db.houses.any (fun hh => hh.ID == houseID)
        · rw [if_pos hex] at h
          cases h
        · rw [if_neg hex] at h
          cases h
    · intro h
      unfold Store.AddTreeByHouseID
      rw [if_pos (hdup.mpr h)]
  · intro hex hnd
    unfold Store.AddTreeByHouseID
    rw [if_neg (fun hd => hnd (hdup.mp hd)),
      if_pos (show (db.houses.any fun hh => hh.ID == houseID) = true from hex)]

/-- C6 witness: inserting the oak into the treeless state succeeds with
the generated identifier, exercising the success branch of the
duplicate characterisation. -/
theorem AddTree_duplicate_iff_witness :
    Store.AddTreeByHouseID dbNoTrees treeOak 1 =
      .ok (dbNoTrees.nextTreeID,
        { dbNoTrees with
            trees := dbNoTrees.trees ++ [Store.insertedTree dbNoTrees treeOak 1]
            nextTreeID := dbNoTrees.nextTreeID + 1 }) :=
  (AddTree_duplicate_iff dbNoTrees treeOak 1).2 (by decide) (by decide)

/-- C7 counterexample: the claim says any path parameter that is not a
positive non-zero integer is rejected, but the handler accepts the
negative parameter string here — ParseInt succeeds and only the zero
value is screened out. -/
theorem getInt32Param_accepts_negative :
    Handler.getInt32Param "-5" = .ok (-5) := rfl

/-- C7 amended: the handler accepts exactly the strings that ParseInt
reads as a nonzero signed 32-bit integer — zero and non-numeric values
are rejected with a client error before the gateway is reached, while
negative integers pass. -/
theorem getInt32Param_spec (s : String) :
    (∀ v, Handler.getInt32Param s = .ok v ↔
      (Handler.goParseInt32 s = some v ∧ v ≠ 0)) ∧
    ((Handler.goParseInt32 s = none ∨ Handler.goParseInt32 s = some 0) →
      Handler.getInt32Param s = .error "param %s must be a valid, non-zero numeral") := by
  constructor
  · intro v
    cases hp : Handler.goParseInt32 s with
    | none =>
      have hred : Handler.getInt32Param s =
          .error "param %s must be a valid, non-zero numeral" := by
        unfold Handler.getInt32Param
        rw [hp]
      rw [hred]
      simp
    | some w =>
      have hred : Handler.getInt32Param s =
          (if (w == 0) = true then .error "param %s must be a valid, non-zero numeral"
           else .ok w) := by
        unfold Handler.getInt32Param
        rw [hp]
      rw [hred]
      by_cases hw : w = 0
      · subst hw
        rw [if_pos (by rfl)]
        constructor
        · intro h
          cases h
        · intro h
          exact absurd ((Option.some.injEq 0 v).mp h.1).symm h.2
      · rw [if_neg (by simp [hw])]
        constructor
        · intro h
          injection h with hh
          subst hh
          exact ⟨rfl, hw⟩
        · intro h
          have hwv := (Option.some.injEq w v).mp h.1
          rw [hwv]
  · intro h
    cases h with
    | inl hn =>
      unfold Handler.getInt32Param
      rw [hn]
    | inr hz =>
      unfold Handler.getInt32Param
      rw [hz]
      rfl

/-- C7 witness: the zero parameter string is rejected with the client
error message. -/
theorem getInt32Param_spec_witness :
    Handler.getInt32Param "0" = .error "param %s must be a valid, non-zero numeral" :=
  (getInt32Param_spec "0").2 (Or.inr rfl)

/-- C8 counterexample: a storm request against an existing house that
has no trees.  The claim says the NoTreesAtHouse error kind maps to a
not-found response, but the handler answers 400, not 404. -/
theorem storm_noTrees_status400 :
    Handler.SendStormByHouseID dbNoTrees 1 0 = .resp 400 dbNoTrees ∧
    Handler.SendStormByHouseID dbNoTrees 1 0 ≠ .resp 404 dbNoTrees := by
  exact ⟨by decide, by decide⟩

/-- C8 amended: the handlers map a missing house and a missing tree to
404, and the tree-listing handler maps an empty tree list to 404; the
storm handler however maps the NoTreesAtHouse error to the client
error status 400. -/
theorem notFound_mapping (db : DB) (houseID treeID : Int) (r : Nat) :
    (Store.GetHouseExistsByHouseID db houseID = false →
      Handler.SendStormByHouseID db houseID r = .resp 404 db) ∧
    (Store.GetHouseExistsByHouseID db houseID = true →
      Store.treeIDsAtHouse db houseID = [] →
      Handler.SendStormByHouseID db houseID r = .resp 400 db) ∧
    (db.trees.find? (fun u => u.ID == treeID) = none →
      Handler.RemoveTreeByTreeID db treeID = (404, db)) ∧
    (Store.GetHouseExistsByHouseID db houseID = false →
      Handler.GetTreesByHouseID db houseID = 404) ∧
    (Store.GetHouseExistsByHouseID db houseID = true →
      Store.GetTreesByHouseID db houseID = [] →
      Handler.GetTreesByHouseID db houseID = 404) := by
  refine ⟨?_, ?_, ?_, ?_, ?_⟩
  · intro h
    simp [Handler.SendStormByHouseID, h]
  · intro hex hempty
    have hstorm : Store.FellRandomTreeByHouseID db houseID r = .rolledBack .noTrees db :=
      fellRandomTreeTx_empty db db houseID r hempty
    simp [Handler.SendStormByHouseID, hex, hstorm]
  · intro h
    simp [Handler.RemoveTreeByTreeID, Store.GetTreeFallenByTreeID, h]
  · intro h
    simp [Handler.GetTreesByHouseID, h]
  · intro hex hempty
    simp [Handler.GetTreesByHouseID, hex, hempty]

/-- C8 witness: a storm request for a house identifier that matches no
record yields the not-found status 404. -/
theorem notFound_mapping_witness :
    Handler.SendStormByHouseID dbNoTrees 99 0 = .resp 404 dbNoTrees :=
  (notFound_mapping dbNoTrees 99 1 0).1 (by decide)

/-- C9: both listings return exactly the matching records in ascending
identifier order (a sorted permutation of the underlying rows), and an
empty match yields the empty sequence — the gateway functions are
total, with no error outcome for emptiness. -/
theorem listings_sorted (db : DB) (houseID : Int) :
    (Store.GetAllHouses db).Sorted Store.houseOrd ∧
    List.Perm (Store.GetAllHouses db) db.houses ∧
    (Store.GetTreesByHouseID db houseID).Sorted Store.treeOrd ∧
    List.Perm (Store.GetTreesByHouseID db houseID)
      (db.trees.filter (fun t => t.HouseID == houseID)) ∧
    (db.houses = [] → Store.GetAllHouses db = []) ∧
    (db.trees.filter (fun t => t.HouseID == houseID) = [] →
      Store.GetTreesByHouseID db houseID = []) := by
  refine ⟨List.sorted_insertionSort _ _, List.perm_insertionSort _ _,
    List.sorted_insertionSort _ _, List.perm_insertionSort _ _, ?_, ?_⟩
  · intro h
    simp [Store.GetAllHouses, h]
  · intro h
    simp [Store.GetTreesByHouseID, h]

/-- C9 witness: with no stored records both listings are empty and the
sortedness facts hold trivially. -/
theorem listings_sorted_witness :
    Store.GetAllHouses dbEmpty = [] ∧ Store.GetTreesByHouseID dbEmpty 1 = [] :=
  ⟨(listings_sorted dbEmpty 1).2.2.2.2.1 rfl,
   (listings_sorted dbEmpty 1).2.2.2.2.2 rfl⟩

/-- C10: the add-house handler rejects an empty address one, an empty
city and an empty state each with a client error and no insertion; any
body with those three fields non-empty is accepted and inserted even
when the zip field is empty — the zip value is never inspected, and the
"must specify zip" rejection is unreachable because its guard repeats
the state check. -/
theorem addHouse_validation (db : DB) (h : House) :
    (h.AddressOne ≠ "" → h.City ≠ "" → h.State ≠ "" →
      Handler.AddHouse db h =
        ((200, ""),
          { db with
              houses := db.houses ++ [{ h with ID := db.nextHouseID }]
              nextHouseID := db.nextHouseID + 1 })) ∧
    (h.AddressOne = "" →
      Handler.AddHouse db h = ((400, "must specify address one"), db)) ∧
    (h.AddressOne ≠ "" → h.City = "" →
      Handler.AddHouse db h = ((400, "must specify city"), db)) ∧
    (h.AddressOne ≠ "" → h.City ≠ "" → h.State = "" →
      Handler.AddHouse db h = ((400, "must specify state"), db)) ∧
    (Handler.AddHouse db h).1 ≠ (400, "must specify zip") := by
  refine ⟨?_, ?_, ?_, ?_, ?_⟩
  · intro h1 h2 h3
    simp [Handler.AddHouse, Store.AddHouse, h1, h2, h3]
  · intro h1
    simp [Handler.AddHouse, h1]
  · intro h1 h2
    simp [Handler.AddHouse, h1, h2]
  · intro h1 h2 h3
    simp [Handler.AddHouse, h1, h2, h3]
  · unfold Handler.AddHouse
    by_cases h1 : h.AddressOne = ""
    · simp [h1]
    · by_cases h2 : h.City = ""
      · simp [h1, h2]
      · by_cases h3 : h.State = ""
        · simp [h1, h2, h3]
        · simp [h1, h2, h3]

/-- C10 witness: a house with non-empty address one, city and state but
an empty zip is accepted and stored. -/
theorem addHouse_validation_witness :
    Handler.AddHouse dbEmpty ⟨0, "a1", "", "c", "s", ""⟩ =
      ((200, ""),
        { dbEmpty with
            houses := dbEmpty.houses ++ [{ (⟨0, "a1", "", "c", "s", ""⟩ : House) with
              ID := dbEmpty.nextHouseID }]
            nextHouseID := dbEmpty.nextHouseID + 1 }) :=
  (addHouse_validation dbEmpty ⟨0, "a1", "", "c", "s", ""⟩).1
    (by decide) (by decide) (by decide)

end Neighborhood
